import Mathlib

/-!
Verification of the `react-pwa` service worker (`public/pokemonWorker.js`),
the client-side retry fetcher (`src/App.tsx`), and the alternative worker
variant found in the repository, as a shallow embedding in Lean 4.

URLs are modelled by their hostname and pathname components; responses by
their HTTP status and an identity tag standing for the body.  Effectful
handlers are embedded as pure functions from their inputs (current cache
state, outcome of each network fetch, connected clients) to an explicit
record of the effects they perform (response returned, cache writes, sync
registrations, broadcasts, delays).
-/

set_option autoImplicit false

namespace PokemonPWA

/-- `hasSub pat s` decides whether `pat` occurs as a contiguous substring
of `s`, mirroring JavaScript `String.prototype.includes`. -/
def hasSub (pat : List Char) : List Char → Bool
  | [] => pat.isEmpty
  | c :: t => pat.isPrefixOf (c :: t) || hasSub pat t

/-- JavaScript `s.includes(pat)`. -/
def strContains (s pat : String) : Bool :=
  hasSub pat.toList s.toList

/-- JavaScript `s.startsWith(p)`. -/
def strStarts (s p : String) : Bool :=
  p.toList.isPrefixOf s.toList

/-- JavaScript `s.endsWith(p)`. -/
def strEnds (s p : String) : Bool :=
  p.toList.isSuffixOf s.toList

/-- JavaScript `s.toLowerCase()`, applied character-wise. -/
def strToLower (s : String) : String :=
  String.mk (s.toList.map Char.toLower)

/-- A request URL, reduced to the two components the worker inspects
(`url.hostname` and `url.pathname`). -/
structure Url where
  hostname : String
  pathname : String
deriving DecidableEq

/-- An HTTP response: its status code and an identity tag standing in for
the body/headers (`clone` preserves it). -/
structure Response where
  status : Nat
  ident : Nat
deriving DecidableEq

/-- JavaScript `Response.ok`: status in the inclusive range 200–299. -/
def isOkStatus (s : Nat) : Bool :=
  200 ≤ s && s ≤ 299

/-- The resource classes produced by `getResourceType` in the worker. -/
inductive ResourceType where
  | api
  | static
  | html
  | none
deriving DecidableEq

/-- `getResourceType` from `public/pokemonWorker.js` (lines 80–91):
`pokeapi.co` host → `api`; `/assets/` path prefix → `static`;
root or `/index.html` → `html`; otherwise `none`. -/
def getResourceType (url : Url) : ResourceType :=
  if strContains url.hostname "pokeapi.co" then
    ResourceType.api
  else if strStarts url.pathname "/assets/" then
    ResourceType.static
  else if url.pathname = "/" || url.pathname = "/index.html" then
    ResourceType.html
  else
    ResourceType.none

/-- `getResourceType` from the alternative worker variant (unnamed part_002,
lines 80–94), which additionally treats `.svg`, `.png` and `.ico` path
suffixes as static. -/
def getResourceTypeAlt (url : Url) : ResourceType :=
  if strContains url.hostname "pokeapi.co" then
    ResourceType.api
  else if strStarts url.pathname "/assets/" ||
      strEnds url.pathname ".svg" ||
      strEnds url.pathname ".png" ||
      strEnds url.pathname ".ico" then
    ResourceType.static
  else if url.pathname = "/" || url.pathname = "/index.html" then
    ResourceType.html
  else
    ResourceType.none

/-- Modelled from the spec: the classification rules as §4.1 states them,
with a recognized static extension for "script, stylesheet, vector image,
raster image, icon".  Written only for comparison against the two source
classifiers. -/
def classifySpec (url : Url) : ResourceType :=
  if strContains url.hostname "pokeapi.co" then
    ResourceType.api
  else if strStarts url.pathname "/assets/" ||
      strEnds url.pathname ".js" ||
      strEnds url.pathname ".css" ||
      strEnds url.pathname ".svg" ||
      strEnds url.pathname ".png" ||
      strEnds url.pathname ".ico" then
    ResourceType.static
  else if url.pathname = "/" || url.pathname = "/index.html" then
    ResourceType.html
  else
    ResourceType.none

/-- `STATIC_CACHE` bucket name. -/
def STATIC_CACHE : String := "pokemon-static-v1"

/-- `API_CACHE` bucket name. -/
def API_CACHE : String := "pokemon-api-v1"

/-- `CACHE_NAME` (declared in the worker but not among the names the
activate handler preserves). -/
def CACHE_NAME : String := "pokemon-pwa-v1"

/-- The cache storage: a list of named buckets, each an association list
from request URL to the stored response snapshot. -/
abbrev CacheState := List (String × List (Url × Response))

/-- `cache.match` within one bucket: first entry stored under the URL. -/
def bucketMatch (entries : List (Url × Response)) (u : Url) : Option Response :=
  (entries.find? (fun e => decide (e.1 = u))).map Prod.snd

/-- `caches.match(request)`: query every bucket in order, returning the
first stored entry matching the request. -/
def cachesMatch : CacheState → Url → Option Response
  | [], _ => Option.none
  | (_, es) :: rest, u =>
    match bucketMatch es u with
    | Option.some r => Option.some r
    | Option.none => cachesMatch rest u

/-- `caches.open(name)` followed by `cache.put(request, response)`:
overwrite the entry for the URL in the named bucket, creating the bucket
when absent. -/
def cachePut : CacheState → String → Url → Response → CacheState
  | [], name, u, r => [(name, [(u, r)])]
  | (n, es) :: rest, name, u, r =>
    if n = name then
      (n, (u, r) :: es.filter (fun e => decide (e.1 ≠ u))) :: rest
    else
      (n, es) :: cachePut rest name u r

/-- The activate handler's cleanup (`public/pokemonWorker.js` lines 30–49):
delete every cache whose name differs from both `STATIC_CACHE` and
`API_CACHE`, keeping the others untouched. -/
def activateCleanup (s : CacheState) : CacheState :=
  s.filter (fun b => b.1 = STATIC_CACHE || b.1 = API_CACHE)

/-- Outcome of the network `fetch(event.request)` inside the interceptor:
either it resolves with a response, or it rejects (offline, DNS, abort). -/
inductive NetOutcome where
  | resp (r : Response)
  | fail
deriving DecidableEq

/-- What `event.respondWith` resolves to: a response, or the propagated
network error (`throw error`). -/
inductive FetchAnswer where
  | resp (r : Response)
  | err
deriving DecidableEq

/-- Explicit record of one interception's effects. -/
structure InterceptEffect where
  returned : FetchAnswer
  state : CacheState
  networkCalled : Bool
  puts : List (String × Url × Response)
  syncRegistered : Bool
deriving DecidableEq

/-- The bucket chosen by the `switch (resourceType)` in the fetch handler:
`api` → `API_CACHE`, `static`/`html` → `STATIC_CACHE`, `none` → no store. -/
def cacheBucketFor : ResourceType → Option String
  | ResourceType.api => Option.some API_CACHE
  | ResourceType.static => Option.some STATIC_CACHE
  | ResourceType.html => Option.some STATIC_CACHE
  | ResourceType.none => Option.none

/-- A request as the fetch handler sees it: method, URL and mode. -/
structure Request where
  method : String
  url : Url
  mode : String
deriving DecidableEq

/-- The synthesized offline fallback `new Response('Offline - App not
available', { status: 503 })`; identity tag 0 marks the synthetic body. -/
def offlineResponse : Response :=
  { status := 503, ident := 0 }

/-- The fetch event handler (`public/pokemonWorker.js` lines 52–160).
`rootUrl` is the URL that `caches.match('/')` resolves to.  Returns
`none` for non-GET requests (the handler returns without calling
`respondWith`: the request bypasses interception), otherwise the full
effect of the interception given the network outcome `net`. -/
def handleFetch (s : CacheState) (req : Request) (net : NetOutcome)
    (rootUrl : Url) : Option InterceptEffect :=
  if req.method ≠ "GET" then
    Option.none
  else
    Option.some <|
      match cachesMatch s req.url with
      | Option.some r =>
        { returned := FetchAnswer.resp r, state := s, networkCalled := false,
          puts := [], syncRegistered := false }
      | Option.none =>
        match net with
        | NetOutcome.resp r =>
          if r.status ≠ 200 then
            { returned := FetchAnswer.resp r, state := s, networkCalled := true,
              puts := [], syncRegistered := false }
          else
            match cacheBucketFor (getResourceType req.url) with
            | Option.some name =>
              { returned := FetchAnswer.resp r,
                state := cachePut s name req.url r, networkCalled := true,
                puts := [(name, req.url, r)], syncRegistered := false }
            | Option.none =>
              { returned := FetchAnswer.resp r, state := s, networkCalled := true,
                puts := [], syncRegistered := false }
        | NetOutcome.fail =>
          let syncReg := strContains (req.url.hostname ++ req.url.pathname) "pokeapi.co"
          if req.mode = "navigate" then
            match cachesMatch s rootUrl with
            | Option.some r =>
              { returned := FetchAnswer.resp r, state := s, networkCalled := true,
                puts := [], syncRegistered := syncReg }
            | Option.none =>
              { returned := FetchAnswer.resp offlineResponse, state := s,
                networkCalled := true, puts := [], syncRegistered := syncReg }
          else
            { returned := FetchAnswer.err, state := s, networkCalled := true,
              puts := [], syncRegistered := syncReg }

/-- Outcome of one `fetch(url, { signal })` attempt inside
`fetchWithRetry` (`src/App.tsx` lines 35–66): the promise resolves with a
response (any status), rejects with a network error, or rejects with an
`AbortError`. -/
inductive AttemptOutcome where
  | ok (status : Nat) (ident : Nat)
  | netErr (msg : String)
  | abort
deriving DecidableEq

/-- The error `fetchWithRetry` can fail with: the HTTP-status error thrown
on a non-ok response, a network error, or the propagated abort. -/
inductive FetchErr where
  | http (status : Nat)
  | net (msg : String)
  | aborted
deriving DecidableEq

/-- Trace of one `fetchWithRetry` run: the result (response identity or
error), the backoff delays awaited in order, and how many fetch attempts
were performed. -/
structure RetryTrace where
  result : Except FetchErr Nat
  delays : List Nat
  fetchCount : Nat

/-- The body of `fetchWithRetry`'s `for` loop, by recursion on the number
of remaining attempts; `attempt` is the 1-based loop index.  A resolved
non-ok response raises an HTTP error, which — like a network error — is
retried after `attempt² × 1000` ms unless this was the last attempt; an
`AbortError` is rethrown at once.  `remaining = 0` is the fall-through
`throw new Error("Max retries exceeded")` after the loop. -/
def runRetry (f : Nat → AttemptOutcome) : Nat → Nat → RetryTrace
  | _, 0 =>
    { result := Except.error (FetchErr.net "Max retries exceeded"),
      delays := [], fetchCount := 0 }
  | attempt, r + 1 =>
    match f attempt with
    | AttemptOutcome.ok s ident =>
      if isOkStatus s then
        { result := Except.ok ident, delays := [], fetchCount := 1 }
      else if r = 0 then
        { result := Except.error (FetchErr.http s), delays := [], fetchCount := 1 }
      else
        let t := runRetry f (attempt + 1) r
        { result := t.result, delays := attempt * attempt * 1000 :: t.delays,
          fetchCount := t.fetchCount + 1 }
    | AttemptOutcome.netErr m =>
      if r = 0 then
        { result := Except.error (FetchErr.net m), delays := [], fetchCount := 1 }
      else
        let t := runRetry f (attempt + 1) r
        { result := t.result, delays := attempt * attempt * 1000 :: t.delays,
          fetchCount := t.fetchCount + 1 }
    | AttemptOutcome.abort =>
      { result := Except.error FetchErr.aborted, delays := [], fetchCount := 1 }

/-- `fetchWithRetry(url, signal, maxRetries)`: run the loop from attempt 1.
The attempt outcomes of the given URL are abstracted as `f`. -/
def fetchWithRetry (f : Nat → AttemptOutcome) (maxRetries : Nat) : RetryTrace :=
  runRetry f 1 maxRetries

/-- An attempt outcome that enters the retry path: a resolved response
with non-ok status, or a network error — but not an abort. -/
def isRetryableFailure : AttemptOutcome → Bool
  | AttemptOutcome.ok s _ => !isOkStatus s
  | AttemptOutcome.netErr _ => true
  | AttemptOutcome.abort => false

/-- The error an attempt outcome raises, when it raises one. -/
def attemptError : AttemptOutcome → Option FetchErr
  | AttemptOutcome.ok s _ =>
    if isOkStatus s then Option.none else Option.some (FetchErr.http s)
  | AttemptOutcome.netErr m => Option.some (FetchErr.net m)
  | AttemptOutcome.abort => Option.some FetchErr.aborted

/-- One entry of the catalog list response's `results` array. -/
structure PokemonRef where
  name : String
  url : String
deriving DecidableEq

/-- The first-page response of `syncPokemonData`: HTTP status, parsed
`results`, and an identity tag for the body snapshot. -/
structure ListResponse where
  status : Nat
  results : List PokemonRef
  ident : Nat
deriving DecidableEq

/-- Outcome of the first-page fetch: resolves or rejects. -/
inductive SyncNet where
  | resp (r : ListResponse)
  | fail
deriving DecidableEq

/-- Outcome of one detail fetch during sync. -/
inductive DetailNet where
  | resp (status : Nat) (ident : Nat)
  | fail
deriving DecidableEq

/-- The hard-coded first-page URL of `syncPokemonData`. -/
def pokemonListUrl : String :=
  "https://pokeapi.co/api/v2/pokemon/?limit=20&offset=0"

/-- Explicit record of the effects of one `syncPokemonData()` run. -/
structure SyncEffect where
  puts : List (String × Nat)
  detailFetched : List String
  broadcasts : List String
  rearmDelayMs : Option Nat
  raised : Bool
deriving DecidableEq

/-- `syncPokemonData` (`public/pokemonWorker.js` lines 174–230).  Fetch the
first catalog page; when it resolves ok, store it, fetch the first 10
detail URLs (storing each response that is ok, swallowing individual
failures), await all of them, and post `SYNC_COMPLETE` to every client.
On a rejected or non-ok first page, the catch block re-arms the
`pokemon-sync` task after 30 000 ms and rethrows.  `puts` lists each
stored URL with the status of the response stored under it. -/
def syncPokemonData (first : SyncNet) (detail : String → DetailNet)
    (clients : List String) : SyncEffect :=
  match first with
  | SyncNet.fail =>
    { puts := [], detailFetched := [], broadcasts := [],
      rearmDelayMs := Option.some 30000, raised := true }
  | SyncNet.resp r =>
    if isOkStatus r.status then
      let urls := (r.results.map PokemonRef.url).take 10
      let detailPuts := urls.filterMap (fun u =>
        match detail u with
        | DetailNet.resp s _ =>
          if isOkStatus s then Option.some (u, s) else Option.none
        | DetailNet.fail => Option.none)
      { puts := (pokemonListUrl, r.status) :: detailPuts,
        detailFetched := urls, broadcasts := clients,
        rearmDelayMs := Option.none, raised := false }
    else
      { puts := [], detailFetched := [], broadcasts := [],
        rearmDelayMs := Option.some 30000, raised := true }

/-- Explicit record of the effects of the worker's `message` handler on a
`USER_MESSAGE`. -/
structure MessageEffect where
  response : String
  portMessages : List String
  broadcasts : List (String × String)
  registered : List String
deriving DecidableEq

/-- The `USER_MESSAGE` branch of the message handler
(`public/pokemonWorker.js` lines 358–392).  The keyword tests run on the
lowercased text, in order `pokemon`, `cache`, `sync`; only the `sync`
branch registers the `pokemon-sync` task.  The composed response is posted
to the reply port when one was supplied, and broadcast to every client. -/
def handleUserMessage (userMessage : String) (timestamp : String)
    (hasPort : Bool) (clients : List String) : MessageEffect :=
  let lower := strToLower userMessage
  let base :=
    if strContains lower "pokemon" then
      { response := "🎮 Pokemon-related message received! \"" ++ userMessage ++
          "\" at " ++ timestamp,
        portMessages := [], broadcasts := [], registered := [] : MessageEffect }
    else if strContains lower "cache" then
      { response := "💾 Cache operation noted: \"" ++ userMessage ++
          "\" at " ++ timestamp,
        portMessages := [], broadcasts := [], registered := [] }
    else if strContains lower "sync" then
      { response := "🔄 Sync triggered by user message: \"" ++ userMessage ++
          "\" at " ++ timestamp,
        portMessages := [], broadcasts := [], registered := ["pokemon-sync"] }
    else
      { response := "✅ Message received: \"" ++ userMessage ++
          "\" at " ++ timestamp,
        portMessages := [], broadcasts := [], registered := [] }
  { base with
    portMessages := if hasPort then [base.response] else [],
    broadcasts := clients.map (fun c => (c, base.response)) }

/-- The whole message handler: only messages tagged `USER_MESSAGE` are
processed, everything else is ignored. -/
def handleMessage (msgType : String) (data : String) (timestamp : String)
    (hasPort : Bool) (clients : List String) : Option MessageEffect :=
  if msgType = "USER_MESSAGE" then
    Option.some (handleUserMessage data timestamp hasPort clients)
  else
    Option.none

/-- The opaque `data` field of a notification: either the default
arrival/time marker `{ dateOfArrival, primaryKey }` built by the worker,
or sender-supplied opaque data. -/
inductive PushData where
  | marker (dateOfArrival : Nat) (primaryKey : Nat)
  | custom (payload : String)
deriving DecidableEq

/-- The fully-populated notification record the push handler works with
(`notificationData`). -/
structure NotificationData where
  title : String
  body : String
  icon : String
  badge : String
  vibrate : List Nat
  data : PushData
deriving DecidableEq

/-- A parsed push payload: each field is optional, absent fields keep the
default (the `{...notificationData, ...pushData}` spread). -/
structure PushPayload where
  title : Option String
  body : Option String
  icon : Option String
  badge : Option String
  vibrate : Option (List Nat)
  data : Option PushData
deriving DecidableEq

/-- The default `notificationData` initialised at the top of the push
handler; `now` stands for `Date.now()`. -/
def defaultNotificationData (now : Nat) : NotificationData :=
  { title := "Pokemon PWA", body := "You have a new notification!",
    icon := "/vite.svg", badge := "/vite.svg", vibrate := [100, 50, 100],
    data := PushData.marker now 1 }

/-- The spread merge `{...notificationData, ...pushData}`: present payload
fields override the defaults, absent ones keep them. -/
def mergePayload (d : NotificationData) (p : PushPayload) : NotificationData :=
  { title := p.title.getD d.title, body := p.body.getD d.body,
    icon := p.icon.getD d.icon, badge := p.badge.getD d.badge,
    vibrate := p.vibrate.getD d.vibrate, data := p.data.getD d.data }

/-- What `event.data` yields in the push handler: absent, structured JSON,
or unparseable raw text (in which case `event.data.text()` is the raw
string). -/
inductive PushEventData where
  | noData
  | json (p : PushPayload)
  | text (raw : String)
deriving DecidableEq

/-- The `options` record passed to `showNotification`. -/
structure NotifOptions where
  body : String
  icon : String
  badge : String
  vibrate : List Nat
  data : PushData
  actions : List (String × String × String)
  requireInteraction : Bool
deriving DecidableEq

/-- Explicit record of the push handler's two side effects: the displayed
system notification (title and options) and the broadcast
`PUSH_NOTIFICATION_RECEIVED` messages. -/
structure PushEffect where
  shownTitle : String
  shownOptions : NotifOptions
  broadcasts : List (String × NotificationData)
deriving DecidableEq

/-- The push event handler (`public/pokemonWorker.js` lines 258–321).
Start from the defaults; on structured data merge it over the defaults; on
a parse failure set `body` to the raw text unless it is empty (`||` keeps
the default for a falsy empty string).  Then broadcast the merged record
to every client and show the notification with the fixed two actions. -/
def handlePush (now : Nat) (ev : PushEventData) (clients : List String) :
    PushEffect :=
  let d := defaultNotificationData now
  let nd :=
    match ev with
    | PushEventData.noData => d
    | PushEventData.json p => mergePayload d p
    | PushEventData.text raw =>
      { d with body := if raw = "" then d.body else raw }
  { shownTitle := nd.title,
    shownOptions :=
      { body := nd.body, icon := nd.icon, badge := nd.badge,
        vibrate := nd.vibrate, data := nd.data,
        actions := [("view", "View App", "/vite.svg"),
                    ("dismiss", "Dismiss", "/vite.svg")],
        requireInteraction := true },
    broadcasts := clients.map (fun c => (c, nd)) }

/-! ## Helper lemmas -/

theorem bucketMatch_cons_self (es : List (Url × Response)) (u : Url)
    (r : Response) : bucketMatch ((u, r) :: es) u = Option.some r := by
  simp [bucketMatch, List.find?]

theorem cachesMatch_cons_none {es : List (Url × Response)} {rest : CacheState}
    {u : Url} {n : String} (h : cachesMatch ((n, es) :: rest) u = Option.none) :
    bucketMatch es u = Option.none ∧ cachesMatch rest u = Option.none := by
  unfold cachesMatch at h
  cases hbm : bucketMatch es u with
  | some r => rw [hbm] at h; exact absurd h (by simp)
  | none => rw [hbm] at h; exact ⟨rfl, h⟩

/-- Writing a fresh entry makes the overall lookup find it: if no bucket
holds the URL, then after `cachePut` into any bucket, `caches.match`
returns the written response. -/
theorem cachesMatch_cachePut_self (s : CacheState) (name : String) (u : Url)
    (r : Response) (h : cachesMatch s u = Option.none) :
    cachesMatch (cachePut s name u r) u = Option.some r := by
  induction s with
  | nil =>
    simp [cachePut, cachesMatch, bucketMatch_cons_self]
  | cons b rest ih =>
    obtain ⟨n, es⟩ := b
    obtain ⟨hb, hrest⟩ := cachesMatch_cons_none h
    by_cases hn : n = name
    · subst hn
      simp [cachePut, cachesMatch, bucketMatch_cons_self]
    · simp only [cachePut, if_neg hn]
      unfold cachesMatch
      rw [hb]
      exact ih hrest

theorem runRetry_retryable_step (f : Nat → AttemptOutcome) (attempt r : Nat)
    (hr : r ≠ 0) (hf : isRetryableFailure (f attempt) = true) :
    runRetry f attempt (r + 1) =
      { result := (runRetry f (attempt + 1) r).result,
        delays := attempt * attempt * 1000 :: (runRetry f (attempt + 1) r).delays,
        fetchCount := (runRetry f (attempt + 1) r).fetchCount + 1 } := by
  cases hfa : f attempt with
  | ok s i =>
    have hs : isOkStatus s = false := by
      simpa [isRetryableFailure, hfa] using hf
    simp [runRetry, hfa, hs, hr]
  | netErr m =>
    simp [runRetry, hfa, hr]
  | abort =>
    simp [isRetryableFailure, hfa] at hf

theorem runRetry_last (f : Nat → AttemptOutcome) (attempt : Nat) (e : FetchErr)
    (hf : isRetryableFailure (f attempt) = true)
    (he : attemptError (f attempt) = Option.some e) :
    runRetry f attempt 1 =
      { result := Except.error e, delays := [], fetchCount := 1 } := by
  cases hfa : f attempt with
  | ok s i =>
    have hs : isOkStatus s = false := by
      simpa [isRetryableFailure, hfa] using hf
    have : FetchErr.http s = e := by
      simpa [attemptError, hfa, hs] using he
    subst this
    simp [runRetry, hfa, hs]
  | netErr m =>
    have : FetchErr.net m = e := by
      simpa [attemptError, hfa] using he
    subst this
    simp [runRetry, hfa]
  | abort =>
    simp [isRetryableFailure, hfa] at hf

theorem runRetry_success (f : Nat → AttemptOutcome) (attempt r s i : Nat)
    (hfa : f attempt = AttemptOutcome.ok s i) (hs : isOkStatus s = true) :
    runRetry f attempt (r + 1) =
      { result := Except.ok i, delays := [], fetchCount := 1 } := by
  simp [runRetry, hfa, hs]

theorem runRetry_abort_now (f : Nat → AttemptOutcome) (attempt r : Nat)
    (hfa : f attempt = AttemptOutcome.abort) :
    runRetry f attempt (r + 1) =
      { result := Except.error FetchErr.aborted, delays := [], fetchCount := 1 } := by
  simp [runRetry, hfa]

/-- Shifting the attempt index out of a backoff-delay list: the delays for
indices `attempt … attempt + d` are the head delay for `attempt` followed
by the delays for indices starting at `attempt + 1`. -/
theorem delaysShift (attempt d : Nat) :
    (List.range (d + 1)).map (fun i => (attempt + i) * (attempt + i) * 1000) =
      attempt * attempt * 1000 ::
        (List.range d).map
          (fun i => (attempt + 1 + i) * (attempt + 1 + i) * 1000) := by
  rw [List.range_succ_eq_map, List.map_cons, List.map_map]
  simp only [List.cons.injEq, Nat.add_zero]
  refine ⟨trivial, ?_⟩
  apply List.map_congr_left
  intro a _
  simp only [Function.comp_apply]
  rw [show attempt + Nat.succ a = attempt + 1 + a from by omega]

/-- The delays a run awaits are always `attempt² × 1000` for the
consecutive attempt indices starting at the initial one. -/
theorem runRetry_delays (f : Nat → AttemptOutcome) :
    ∀ r attempt : Nat,
      (runRetry f attempt r).delays =
        (List.range (runRetry f attempt r).delays.length).map
          (fun i => (attempt + i) * (attempt + i) * 1000) := by
  intro r
  induction r with
  | zero =>
    intro attempt
    simp [runRetry]
  | succ r ih =>
    intro attempt
    cases hfa : f attempt with
    | ok s i =>
      by_cases hs : isOkStatus s = true
      · simp [runRetry, hfa, hs]
      · have hs' : isOkStatus s = false := by
          cases h' : isOkStatus s
          · rfl
          · exact absurd h' hs
        have hret : isRetryableFailure (f attempt) = true := by
          simp [isRetryableFailure, hfa, hs']
        by_cases hr : r = 0
        · subst hr
          simp [runRetry, hfa, hs']
        · simp only [runRetry_retryable_step f attempt r hr hret,
            List.length_cons]
          rw [delaysShift attempt ((runRetry f (attempt + 1) r).delays.length)]
          simp only [List.cons.injEq, true_and]
          exact ih (attempt + 1)
    | netErr m =>
      have hret : isRetryableFailure (f attempt) = true := by
        simp [isRetryableFailure, hfa]
      by_cases hr : r = 0
      · subst hr
        simp [runRetry, hfa]
      · simp only [runRetry_retryable_step f attempt r hr hret,
          List.length_cons]
        rw [delaysShift attempt ((runRetry f (attempt + 1) r).delays.length)]
        simp only [List.cons.injEq, true_and]
        exact ih (attempt + 1)
    | abort =>
      simp [runRetry, hfa]

/-- A run whose first `d` attempts are retryable failures and whose
`(d+1)`-st attempt aborts: the abort is raised at once, after exactly the
`d` earlier backoff delays and `d + 1` fetches, with no further attempt. -/
theorem runRetry_abort_run (f : Nat → AttemptOutcome) :
    ∀ (d attempt r : Nat), d + 1 ≤ r →
      (∀ j, attempt ≤ j → j < attempt + d → isRetryableFailure (f j) = true) →
      f (attempt + d) = AttemptOutcome.abort →
      runRetry f attempt r =
        { result := Except.error FetchErr.aborted,
          delays := (List.range d).map
            (fun i => (attempt + i) * (attempt + i) * 1000),
          fetchCount := d + 1 } := by
  intro d
  induction d with
  | zero =>
    intro attempt r hr hpre habort
    obtain ⟨r', rfl⟩ : ∃ r', r = r' + 1 := ⟨r - 1, by omega⟩
    rw [runRetry_abort_now f attempt r' (by simpa using habort)]
    simp
  | succ d ih =>
    intro attempt r hr hpre habort
    obtain ⟨r', rfl⟩ : ∃ r', r = r' + 1 := ⟨r - 1, by omega⟩
    have hfa : isRetryableFailure (f attempt) = true :=
      hpre attempt le_rfl (by omega)
    have hr' : r' ≠ 0 := by omega
    have hrec := ih (attempt + 1) r' (by omega)
      (fun j hj1 hj2 => hpre j (by omega) (by omega))
      (by rw [show attempt + 1 + d = attempt + (d + 1) from by omega]; exact habort)
    rw [runRetry_retryable_step f attempt r' hr' hfa]
    simp only [hrec, delaysShift attempt d]

/-! ## Claim theorems -/

/-- C6: after the activation cleanup, a bucket survives exactly when it
was already present and its name is one of the two current bucket names
(`STATIC_CACHE`, `API_CACHE`); surviving buckets keep their entries
unchanged, every other pre-existing bucket is deleted, so no two live
generations of a bucket coexist. -/
theorem activation_purges_stale_buckets (s : CacheState) (name : String)
    (entries : List (Url × Response)) :
    (name, entries) ∈ activateCleanup s ↔
      (name, entries) ∈ s ∧ (name = STATIC_CACHE ∨ name = API_CACHE) := by
  simp [activateCleanup, List.mem_filter]

/-- C2 (amended): the classification function follows its ordered rules —
catalog API host → `api`; `/assets/` path prefix → `static` (the variant
classifier additionally accepts the `.svg`/`.png`/`.ico` extensions; no
script or stylesheet extension is recognized by either); root or
`/index.html` → `html`; otherwise `none` — where "otherwise" for the
deployed classifier includes non-`/assets/` image paths such as
`/vite.svg` that only the variant turns into `static`.  Being a function,
it is total, pure and deterministic. -/
theorem classify_ordered_rules :
    (∀ u : Url, strContains u.hostname "pokeapi.co" = true →
      getResourceType u = ResourceType.api ∧
      getResourceTypeAlt u = ResourceType.api) ∧
    (∀ u : Url, strContains u.hostname "pokeapi.co" = false →
      strStarts u.pathname "/assets/" = true →
      getResourceType u = ResourceType.static ∧
      getResourceTypeAlt u = ResourceType.static) ∧
    (∀ u : Url, strContains u.hostname "pokeapi.co" = false →
      (strEnds u.pathname ".svg" = true ∨ strEnds u.pathname ".png" = true ∨
        strEnds u.pathname ".ico" = true) →
      getResourceTypeAlt u = ResourceType.static) ∧
    (∀ u : Url, strContains u.hostname "pokeapi.co" = false →
      strStarts u.pathname "/assets/" = false →
      (u.pathname = "/" ∨ u.pathname = "/index.html") →
      getResourceType u = ResourceType.html ∧
      getResourceTypeAlt u = ResourceType.html) ∧
    (∀ u : Url, strContains u.hostname "pokeapi.co" = false →
      strStarts u.pathname "/assets/" = false →
      u.pathname ≠ "/" → u.pathname ≠ "/index.html" →
      getResourceType u = ResourceType.none) ∧
    (∀ u : Url, strContains u.hostname "pokeapi.co" = false →
      strStarts u.pathname "/assets/" = false →
      strEnds u.pathname ".svg" = false →
      strEnds u.pathname ".png" = false →
      strEnds u.pathname ".ico" = false →
      u.pathname ≠ "/" → u.pathname ≠ "/index.html" →
      getResourceTypeAlt u = ResourceType.none) := by
  refine ⟨?_, ?_, ?_, ?_, ?_, ?_⟩
  · intro u h
    constructor <;> simp [getResourceType, getResourceTypeAlt, h]
  · intro u h1 h2
    constructor <;> simp [getResourceType, getResourceTypeAlt, h1, h2]
  · intro u h1 h2
    rcases h2 with h2 | h2 | h2 <;> simp [getResourceTypeAlt, h1, h2]
  · intro u h1 h2 h3
    have hsvg : strEnds u.pathname ".svg" = false := by
      rcases h3 with h3 | h3 <;> rw [h3] <;> decide
    have hpng : strEnds u.pathname ".png" = false := by
      rcases h3 with h3 | h3 <;> rw [h3] <;> decide
    have hico : strEnds u.pathname ".ico" = false := by
      rcases h3 with h3 | h3 <;> rw [h3] <;> decide
    constructor <;>
      simp [getResourceType, getResourceTypeAlt, h1, h2, hsvg, hpng, hico, h3]
  · intro u h1 h2 h6 h7
    simp [getResourceType, h1, h2, h6, h7]
  · intro u h1 h2 h3 h4 h5 h6 h7
    simp [getResourceTypeAlt, h1, h2, h3, h4, h5, h6, h7]

/-- C2 witness: the rule branches at concrete URLs, including the point
where the two classifiers diverge: the deployed worker classifies the
image URL `/vite.svg` as `none`, the variant as `static`. -/
theorem classify_ordered_rules_witness :
    getResourceType { hostname := "pokeapi.co", pathname := "/api/v2/pokemon/" } =
      ResourceType.api ∧
    getResourceType { hostname := "localhost", pathname := "/assets/app-3f2b.js" } =
      ResourceType.static ∧
    getResourceTypeAlt { hostname := "localhost", pathname := "/vite.svg" } =
      ResourceType.static ∧
    getResourceType { hostname := "localhost", pathname := "/" } =
      ResourceType.html ∧
    getResourceType { hostname := "localhost", pathname := "/vite.svg" } =
      ResourceType.none ∧
    getResourceType { hostname := "localhost", pathname := "/about" } =
      ResourceType.none ∧
    getResourceTypeAlt { hostname := "localhost", pathname := "/about" } =
      ResourceType.none :=
  ⟨(classify_ordered_rules.1 _ (by decide)).1,
   (classify_ordered_rules.2.1 _ (by decide) (by decide)).1,
   classify_ordered_rules.2.2.1 _ (by decide) (Or.inl (by decide)),
   (classify_ordered_rules.2.2.2.1 _ (by decide) (by decide) (Or.inl rfl)).1,
   classify_ordered_rules.2.2.2.2.1 _ (by decide) (by decide) (by decide)
     (by decide),
   classify_ordered_rules.2.2.2.2.1 _ (by decide) (by decide) (by decide)
     (by decide),
   classify_ordered_rules.2.2.2.2.2 _ (by decide) (by decide) (by decide)
     (by decide) (by decide) (by decide) (by decide)⟩

/-- C2 counterexample: the claim's static rule includes script and
stylesheet extensions, but a script URL outside `/assets/` is classified
`none` by both source classifiers, while the spec's rules give `static`. -/
theorem classify_no_script_extension_counterexample :
    classifySpec { hostname := "example.com", pathname := "/main.js" } =
      ResourceType.static ∧
    getResourceType { hostname := "example.com", pathname := "/main.js" } =
      ResourceType.none ∧
    getResourceTypeAlt { hostname := "example.com", pathname := "/main.js" } =
      ResourceType.none ∧
    ResourceType.static ≠ ResourceType.none := by
  refine ⟨rfl, rfl, rfl, by decide⟩

/-- C1: a stored entry matching an intercepted GET request is returned
with no network call; and an interception that misses, fetches a
status-200 response classified into a bucket, returns that response and
stores it, so intercepting the same request again is a cache hit with no
second network call. -/
theorem interceptor_cache_hit :
    (∀ (s : CacheState) (req : Request) (net : NetOutcome) (rootUrl : Url)
      (r : Response),
      req.method = "GET" → cachesMatch s req.url = Option.some r →
      handleFetch s req net rootUrl =
        Option.some
          { returned := FetchAnswer.resp r, state := s, networkCalled := false,
            puts := [], syncRegistered := false }) ∧
    (∀ (s : CacheState) (req : Request) (r : Response) (net₂ : NetOutcome)
      (rootUrl : Url),
      req.method = "GET" → cachesMatch s req.url = Option.none →
      r.status = 200 → getResourceType req.url ≠ ResourceType.none →
      ∃ e₁ : InterceptEffect,
        handleFetch s req (NetOutcome.resp r) rootUrl = Option.some e₁ ∧
        e₁.returned = FetchAnswer.resp r ∧ e₁.networkCalled = true ∧
        handleFetch e₁.state req net₂ rootUrl =
          Option.some
            { returned := FetchAnswer.resp r, state := e₁.state,
              networkCalled := false, puts := [], syncRegistered := false }) := by
  constructor
  · intro s req net rootUrl r hm hc
    simp [handleFetch, hm, hc]
  · intro s req r net₂ rootUrl hm hc hst hrt
    obtain ⟨name, hname⟩ : ∃ name,
        cacheBucketFor (getResourceType req.url) = Option.some name := by
      cases h : getResourceType req.url
      · exact ⟨API_CACHE, by simp [cacheBucketFor]⟩
      · exact ⟨STATIC_CACHE, by simp [cacheBucketFor]⟩
      · exact ⟨STATIC_CACHE, by simp [cacheBucketFor]⟩
      · exact absurd h hrt
    refine ⟨{ returned := FetchAnswer.resp r,
              state := cachePut s name req.url r, networkCalled := true,
              puts := [(name, req.url, r)], syncRegistered := false },
            ?_, rfl, rfl, ?_⟩
    · simp [handleFetch, hm, hc, hst, hname]
    · have h2 : cachesMatch (cachePut s name req.url r) req.url =
          Option.some r := cachesMatch_cachePut_self s name req.url r hc
      simp [handleFetch, hm, h2]

/-- C1 witness: a fresh API request fetched with status 200 is stored and
the second interception is answered from the cache without a network
call. -/
theorem interceptor_cache_hit_witness :
    ∃ e₁ : InterceptEffect,
      handleFetch []
          { method := "GET",
            url := { hostname := "pokeapi.co", pathname := "/api/v2/pokemon/" },
            mode := "cors" }
          (NetOutcome.resp { status := 200, ident := 5 })
          { hostname := "localhost", pathname := "/" } = Option.some e₁ ∧
      e₁.returned = FetchAnswer.resp { status := 200, ident := 5 } ∧
      e₁.networkCalled = true ∧
      handleFetch e₁.state
          { method := "GET",
            url := { hostname := "pokeapi.co", pathname := "/api/v2/pokemon/" },
            mode := "cors" }
          NetOutcome.fail
          { hostname := "localhost", pathname := "/" } =
        Option.some
          { returned := FetchAnswer.resp { status := 200, ident := 5 },
            state := e₁.state, networkCalled := false, puts := [],
            syncRegistered := false } :=
  interceptor_cache_hit.2 [] _ _ NetOutcome.fail _ rfl rfl rfl (by decide)

/-- C3 (amended): `fetchWithRetry` with `maxAttempts = 3` waits exactly
`k² × 1000` ms between attempt `k` and `k + 1` — that is 1000 ms after
attempt 1 and 4000 ms after attempt 2 (not 1 s, 2 s, 4 s); a run that
fails retryably twice and succeeds on the third attempt performs exactly
the two delays 1000 ms and 4000 ms and returns the third response; three
consecutive retryable failures fail with the last observed error; and in
general every awaited delay is `k² × 1000` for consecutive `k` from 1. -/
theorem backoff_squared_delays :
    (∀ (f : Nat → AttemptOutcome) (s₃ i₃ : Nat),
      isRetryableFailure (f 1) = true → isRetryableFailure (f 2) = true →
      f 3 = AttemptOutcome.ok s₃ i₃ → isOkStatus s₃ = true →
      fetchWithRetry f 3 =
        { result := Except.ok i₃, delays := [1000, 4000], fetchCount := 3 }) ∧
    (∀ (f : Nat → AttemptOutcome) (e : FetchErr),
      isRetryableFailure (f 1) = true → isRetryableFailure (f 2) = true →
      isRetryableFailure (f 3) = true → attemptError (f 3) = Option.some e →
      fetchWithRetry f 3 =
        { result := Except.error e, delays := [1000, 4000], fetchCount := 3 }) ∧
    (∀ (f : Nat → AttemptOutcome) (maxRetries : Nat),
      (fetchWithRetry f maxRetries).delays =
        (List.range (fetchWithRetry f maxRetries).delays.length).map
          (fun i => (i + 1) * (i + 1) * 1000)) := by
  refine ⟨?_, ?_, ?_⟩
  · intro f s₃ i₃ h1 h2 h3 hok
    show runRetry f 1 (2 + 1) = _
    rw [runRetry_retryable_step f 1 2 (by omega) h1]
    rw [show (2 : Nat) = 1 + 1 from rfl,
      runRetry_retryable_step f 2 1 (by omega) h2]
    rw [show (1 : Nat) = 0 + 1 from rfl, runRetry_success f 3 0 s₃ i₃ h3 hok]
  · intro f e h1 h2 h3 he
    show runRetry f 1 (2 + 1) = _
    rw [runRetry_retryable_step f 1 2 (by omega) h1]
    rw [show (2 : Nat) = 1 + 1 from rfl,
      runRetry_retryable_step f 2 1 (by omega) h2]
    rw [runRetry_last f 3 e h3 he]
  · intro f maxRetries
    have h := runRetry_delays f maxRetries 1
    rw [fetchWithRetry, h]
    simp only [List.length_map, List.length_range]
    apply List.map_congr_left
    intro a _
    rw [show (1 : Nat) + a = a + 1 from by omega]

/-- C3 witness: a concrete schedule failing on attempts 1 and 2 and
succeeding with status 200 on attempt 3. -/
theorem backoff_squared_delays_witness :
    fetchWithRetry
        (fun j => if j = 3 then AttemptOutcome.ok 200 7
          else AttemptOutcome.netErr "offline") 3 =
      { result := Except.ok 7, delays := [1000, 4000], fetchCount := 3 } :=
  backoff_squared_delays.1
    (fun j => if j = 3 then AttemptOutcome.ok 200 7
      else AttemptOutcome.netErr "offline") 200 7 rfl rfl rfl rfl

/-- C3 counterexample: the claim's gloss "(1 s, 2 s, 4 s for attempts
1–3)" does not match the code's `attempt ** 2 * 1000`: on three
consecutive failures the two awaited delays are 1000 ms and 4000 ms, not
1000 ms and 2000 ms. -/
theorem backoff_gloss_counterexample :
    (fetchWithRetry (fun _ => AttemptOutcome.netErr "offline") 3).delays =
      [1000, 4000] ∧
    ([1000, 4000] : List Nat) ≠ [1000, 2000] := by
  exact ⟨rfl, by decide⟩

/-- C4: an abort is never retried — whenever the first `k - 1` attempts
fail retryably and attempt `k` aborts (for any `k` within any attempt
budget), the run stops at exactly `k` fetches, adds no delay after the
abort, and propagates the abort error to the caller. -/
theorem abort_short_circuits (f : Nat → AttemptOutcome) (maxRetries k : Nat)
    (hk1 : 1 ≤ k) (hk2 : k ≤ maxRetries)
    (hpre : ∀ j, 1 ≤ j → j < k → isRetryableFailure (f j) = true)
    (habort : f k = AttemptOutcome.abort) :
    fetchWithRetry f maxRetries =
      { result := Except.error FetchErr.aborted,
        delays := (List.range (k - 1)).map
          (fun i => (1 + i) * (1 + i) * 1000),
        fetchCount := k } := by
  have h := runRetry_abort_run f (k - 1) 1 maxRetries (by omega)
    (fun j hj1 hj2 => hpre j hj1 (by omega))
    (by rw [show 1 + (k - 1) = k from by omega]; exact habort)
  rw [fetchWithRetry, h]
  rw [show k - 1 + 1 = k from by omega]

/-- C4 witness: a run aborted on its second of five attempts performs two
fetches, the single 1000 ms delay already owed to attempt 1, and raises
the abort. -/
theorem abort_short_circuits_witness :
    fetchWithRetry
        (fun j => if j = 2 then AttemptOutcome.abort
          else AttemptOutcome.netErr "offline") 5 =
      { result := Except.error FetchErr.aborted, delays := [1000],
        fetchCount := 2 } := by
  have h := abort_short_circuits
    (fun j => if j = 2 then AttemptOutcome.abort
      else AttemptOutcome.netErr "offline") 5 2 (by omega) (by omega)
    (by intro j hj1 hj2
        have : j = 1 := by omega
        subst this
        rfl)
    rfl
  rw [h]
  rfl

/-- C5 (amended): non-GET requests are never intercepted, and every store
is of a successful GET response — the fetch interceptor writes only
status-200 responses, while the sync task writes any response whose
status is ok (2xx), not only 200. -/
theorem stores_only_successful (s : CacheState) (req : Request)
    (net : NetOutcome) (rootUrl : Url) :
    (∀ e : InterceptEffect, handleFetch s req net rootUrl = Option.some e →
      ∀ p ∈ e.puts, (p.2.2).status = 200) ∧
    (req.method ≠ "GET" → handleFetch s req net rootUrl = Option.none) ∧
    (∀ (first : SyncNet) (detail : String → DetailNet)
      (clients : List String),
      ∀ p ∈ (syncPokemonData first detail clients).puts,
        isOkStatus p.2 = true) := by
  refine ⟨?_, ?_, ?_⟩
  · intro e he p hp
    unfold handleFetch at he
    split at he
    · simp at he
    · obtain rfl : _ = e := Option.some.inj he
      split at hp
      · simp at hp
      · split at hp
        · split at hp
          · simp at hp
          · rename_i r hst
            split at hp
            · simp only [List.mem_singleton] at hp
              subst hp
              simp only []
              exact not_not.mp hst
            · simp at hp
        · split at hp
          · split at hp
            · simp at hp
            · simp at hp
          · simp at hp
  · intro hmeth
    simp [handleFetch, hmeth]
  · intro first detail clients p hp
    cases first with
    | fail => simp [syncPokemonData] at hp
    | resp r =>
      by_cases hok : isOkStatus r.status = true
      · simp only [syncPokemonData, if_pos hok] at hp
        simp only [List.mem_cons] at hp
        rcases hp with hp | hp
        · rw [hp]
          exact hok
        · rw [List.mem_filterMap] at hp
          obtain ⟨u, _, hu⟩ := hp
          cases hd : detail u with
          | resp ds di =>
            rw [hd] at hu
            by_cases hds : isOkStatus ds = true
            · simp only [if_pos hds] at hu
              obtain rfl : _ = p := Option.some.inj hu
              exact hds
            · simp [if_neg hds] at hu
          | fail => rw [hd] at hu; exact absurd hu (by simp)
      · simp [syncPokemonData, hok] at hp

/-- C5 witness: a non-GET request bypasses interception; a concrete 200
store through the interceptor and a concrete ok store through the sync
task satisfy the invariant. -/
theorem stores_only_successful_witness :
    ({ method := "POST",
       url := { hostname := "localhost", pathname := "/api/subscribe" },
       mode := "cors" } : Request).method ≠ "GET" ∧
    handleFetch []
        { method := "POST",
          url := { hostname := "localhost", pathname := "/api/subscribe" },
          mode := "cors" }
        NetOutcome.fail { hostname := "localhost", pathname := "/" } =
      Option.none ∧
    ({ status := 200, ident := 3 } : Response).status = 200 ∧
    isOkStatus ((pokemonListUrl, 203) : String × Nat).2 = true := by
  refine ⟨by decide, ?_, ?_, ?_⟩
  · exact (stores_only_successful []
      { method := "POST",
        url := { hostname := "localhost", pathname := "/api/subscribe" },
        mode := "cors" }
      NetOutcome.fail { hostname := "localhost", pathname := "/" }).2.1
      (by decide)
  · exact (stores_only_successful []
      { method := "GET",
        url := { hostname := "pokeapi.co", pathname := "/api/v2/pokemon/" },
        mode := "cors" }
      (NetOutcome.resp { status := 200, ident := 3 })
      { hostname := "localhost", pathname := "/" }).1
      { returned := FetchAnswer.resp { status := 200, ident := 3 },
        state := [(API_CACHE,
          [({ hostname := "pokeapi.co", pathname := "/api/v2/pokemon/" },
            { status := 200, ident := 3 })])],
        networkCalled := true,
        puts := [(API_CACHE,
          { hostname := "pokeapi.co", pathname := "/api/v2/pokemon/" },
          { status := 200, ident := 3 })],
        syncRegistered := false }
      (by decide)
      (API_CACHE, { hostname := "pokeapi.co", pathname := "/api/v2/pokemon/" },
        { status := 200, ident := 3 })
      (by decide)
  · exact (stores_only_successful [] 
      { method := "GET",
        url := { hostname := "pokeapi.co", pathname := "/api/v2/pokemon/" },
        mode := "cors" }
      NetOutcome.fail { hostname := "localhost", pathname := "/" }).2.2
      (SyncNet.resp { status := 203, results := [], ident := 0 })
      (fun _ => DetailNet.fail) [] (pokemonListUrl, 203) (by decide)

/-- C5 counterexample: the sync task stores the first-page response
whenever its status is ok (2xx) — a 203 response is stored, violating the
claim that only status-200 responses ever enter a bucket. -/
theorem sync_stores_non200_counterexample :
    (syncPokemonData
        (SyncNet.resp { status := 203, results := [], ident := 0 })
        (fun _ => DetailNet.fail) []).puts = [(pokemonListUrl, 203)] ∧
    (203 : Nat) ≠ 200 := by
  exact ⟨rfl, by decide⟩

/-- C7: a failed first-page fetch (rejected, or resolved non-ok) re-arms
the `pokemon-sync` task after exactly 30 000 ms and re-raises the error,
broadcasting nothing; a successful (ok) first page re-arms nothing,
raises nothing, and broadcasts `SYNC_COMPLETE` to every open client. -/
theorem sync_failure_dual_handling :
    (∀ (detail : String → DetailNet) (clients : List String),
      syncPokemonData SyncNet.fail detail clients =
        { puts := [], detailFetched := [], broadcasts := [],
          rearmDelayMs := Option.some 30000, raised := true }) ∧
    (∀ (r : ListResponse) (detail : String → DetailNet)
      (clients : List String), isOkStatus r.status = false →
      syncPokemonData (SyncNet.resp r) detail clients =
        { puts := [], detailFetched := [], broadcasts := [],
          rearmDelayMs := Option.some 30000, raised := true }) ∧
    (∀ (r : ListResponse) (detail : String → DetailNet)
      (clients : List String), isOkStatus r.status = true →
      (syncPokemonData (SyncNet.resp r) detail clients).rearmDelayMs =
          Option.none ∧
      (syncPokemonData (SyncNet.resp r) detail clients).raised = false ∧
      (syncPokemonData (SyncNet.resp r) detail clients).broadcasts =
        clients) := by
  refine ⟨?_, ?_, ?_⟩
  · intro detail clients
    rfl
  · intro r detail clients hok
    simp [syncPokemonData, hok]
  · intro r detail clients hok
    simp [syncPokemonData, hok]

/-- C7 witness: a rejected first page re-arms and raises; a non-ok first
page (status 500) does the same; an ok first page broadcasts to both open
clients with no re-arm. -/
theorem sync_failure_dual_handling_witness :
    syncPokemonData SyncNet.fail (fun _ => DetailNet.fail) ["c1", "c2"] =
      { puts := [], detailFetched := [], broadcasts := [],
        rearmDelayMs := Option.some 30000, raised := true } ∧
    syncPokemonData (SyncNet.resp { status := 500, results := [], ident := 1 })
        (fun _ => DetailNet.fail) ["c1", "c2"] =
      { puts := [], detailFetched := [], broadcasts := [],
        rearmDelayMs := Option.some 30000, raised := true } ∧
    (syncPokemonData
        (SyncNet.resp { status := 200, results := [], ident := 1 })
        (fun _ => DetailNet.fail) ["c1", "c2"]).broadcasts = ["c1", "c2"] :=
  ⟨sync_failure_dual_handling.1 (fun _ => DetailNet.fail) ["c1", "c2"],
   sync_failure_dual_handling.2.1 { status := 500, results := [], ident := 1 }
     (fun _ => DetailNet.fail) ["c1", "c2"] rfl,
   (sync_failure_dual_handling.2.2 { status := 200, results := [], ident := 1 }
     (fun _ => DetailNet.fail) ["c1", "c2"] rfl).2.2⟩

/-- C10: on a successful first page, exactly the first 10 result URLs are
detail-fetched, in list order; every stored detail has an ok status and
comes from that fetched set; and the completion broadcast reaches all
clients regardless of individual detail failures. -/
theorem sync_detail_batch (r : ListResponse) (detail : String → DetailNet)
    (clients : List String) (hok : isOkStatus r.status = true) :
    (syncPokemonData (SyncNet.resp r) detail clients).detailFetched =
      (r.results.map PokemonRef.url).take 10 ∧
    (∀ p ∈ (syncPokemonData (SyncNet.resp r) detail clients).puts.tail,
      isOkStatus p.2 = true ∧
      p.1 ∈ (r.results.map PokemonRef.url).take 10) ∧
    (syncPokemonData (SyncNet.resp r) detail clients).broadcasts =
      clients := by
  refine ⟨by simp [syncPokemonData, hok], ?_, by simp [syncPokemonData, hok]⟩
  intro p hp
  simp only [syncPokemonData, if_pos hok, List.tail_cons] at hp
  rw [List.mem_filterMap] at hp
  obtain ⟨u, hu1, hu2⟩ := hp
  cases hd : detail u with
  | resp ds di =>
    rw [hd] at hu2
    by_cases hds : isOkStatus ds = true
    · simp only [if_pos hds] at hu2
      obtain rfl : _ = p := Option.some.inj hu2
      exact ⟨hds, hu1⟩
    · simp [if_neg hds] at hu2
  | fail => rw [hd] at hu2; exact absurd hu2 (by simp)

/-- C10 witness: a page of 12 results detail-fetches exactly the first
10; a failing detail ("2") and a non-ok detail ("3") are skipped while
the broadcast still reaches the client. -/
theorem sync_detail_batch_witness :
    (syncPokemonData
        (SyncNet.resp
          { status := 200,
            results := (List.range 12).map
              (fun i => { name := toString i, url := toString i }),
            ident := 1 })
        (fun u => if u = "2" then DetailNet.fail
          else if u = "3" then DetailNet.resp 404 0
          else DetailNet.resp 200 1) ["c1"]).detailFetched =
      ((((List.range 12).map
          (fun i => ({ name := toString i, url := toString i } : PokemonRef))).map
        PokemonRef.url).take 10) ∧
    (syncPokemonData
        (SyncNet.resp
          { status := 200,
            results := (List.range 12).map
              (fun i => { name := toString i, url := toString i }),
            ident := 1 })
        (fun u => if u = "2" then DetailNet.fail
          else if u = "3" then DetailNet.resp 404 0
          else DetailNet.resp 200 1) ["c1"]).broadcasts = ["c1"] := by
  have h := sync_detail_batch
    { status := 200,
      results := (List.range 12).map
        (fun i => { name := toString i, url := toString i }),
      ident := 1 }
    (fun u => if u = "2" then DetailNet.fail
      else if u = "3" then DetailNet.resp 404 0
      else DetailNet.resp 200 1) ["c1"] rfl
  exact ⟨h.1, h.2.2⟩

/-- C8 (amended): a USER_MESSAGE containing "sync" but neither "pokemon"
nor "cache" (the keyword rules apply in that order) gets a
USER_MESSAGE_RESPONSE on the reply port when supplied and broadcast to
every client, and registers the `pokemon-sync` task; a message containing
none of the three keywords gets only the generic acknowledgement on both
channels and registers no task. -/
theorem user_message_sync_keyword :
    (∀ (msg ts : String) (hasPort : Bool) (clients : List String),
      strContains (strToLower msg) "sync" = true →
      strContains (strToLower msg) "pokemon" = false →
      strContains (strToLower msg) "cache" = false →
      ∃ eff : MessageEffect,
        handleMessage "USER_MESSAGE" msg ts hasPort clients =
          Option.some eff ∧
        eff.registered = ["pokemon-sync"] ∧
        eff.portMessages = (if hasPort then [eff.response] else []) ∧
        eff.broadcasts = clients.map (fun c => (c, eff.response))) ∧
    (∀ (msg ts : String) (hasPort : Bool) (clients : List String),
      strContains (strToLower msg) "pokemon" = false →
      strContains (strToLower msg) "cache" = false →
      strContains (strToLower msg) "sync" = false →
      ∃ eff : MessageEffect,
        handleMessage "USER_MESSAGE" msg ts hasPort clients =
          Option.some eff ∧
        eff.registered = [] ∧
        eff.response = "✅ Message received: \"" ++ msg ++ "\" at " ++ ts ∧
        eff.portMessages = (if hasPort then [eff.response] else []) ∧
        eff.broadcasts = clients.map (fun c => (c, eff.response))) := by
  constructor
  · intro msg ts hasPort clients hsync hpoke hcache
    refine ⟨handleUserMessage msg ts hasPort clients, rfl, ?_, ?_, ?_⟩ <;>
      simp [handleUserMessage, hsync, hpoke, hcache]
  · intro msg ts hasPort clients hpoke hcache hsync
    refine ⟨handleUserMessage msg ts hasPort clients, rfl, ?_, ?_, ?_, ?_⟩ <;>
      simp [handleUserMessage, hsync, hpoke, hcache]

/-- C8 witness: "please sync now" registers the task and is acknowledged
on both channels; "hello there" gets only the generic acknowledgement. -/
theorem user_message_sync_keyword_witness :
    (∃ eff : MessageEffect,
      handleMessage "USER_MESSAGE" "please sync now" "12:00:00" true
          ["c1", "c2"] = Option.some eff ∧
      eff.registered = ["pokemon-sync"] ∧
      eff.portMessages = (if true then [eff.response] else []) ∧
      eff.broadcasts = ["c1", "c2"].map (fun c => (c, eff.response))) ∧
    (∃ eff : MessageEffect,
      handleMessage "USER_MESSAGE" "hello there" "12:00:00" false ["c1"] =
        Option.some eff ∧
      eff.registered = [] ∧
      eff.response = "✅ Message received: \"" ++ "hello there" ++ "\" at " ++
        "12:00:00" ∧
      eff.portMessages = (if false then [eff.response] else []) ∧
      eff.broadcasts = ["c1"].map (fun c => (c, eff.response))) :=
  ⟨user_message_sync_keyword.1 "please sync now" "12:00:00" true ["c1", "c2"]
     (by decide) (by decide) (by decide),
   user_message_sync_keyword.2 "hello there" "12:00:00" false ["c1"]
     (by decide) (by decide) (by decide)⟩

/-- C8 counterexample: "Pokemon sync" contains the word "sync", yet the
earlier "pokemon" keyword branch wins, so no task is registered —
refuting "for every USER_MESSAGE whose text contains the word sync …
registers the catalog-sync task". -/
theorem user_message_sync_keyword_counterexample :
    strContains (strToLower "Pokemon sync") "sync" = true ∧
    (handleUserMessage "Pokemon sync" "12:00:00" true ["c1"]).registered =
      [] := by
  exact ⟨rfl, rfl⟩

/-- C9: the effective push notification is the parsed payload merged over
the documented defaults; a payload supplying only title and body keeps
the default icon, badge, vibration pattern, and arrival/time marker data
in both the displayed notification and the broadcast message; on parse
failure the raw text becomes the body of the default payload (kept when
the raw text is empty) and the notification is still shown; and the
broadcast record always equals the merged record used for display. -/
theorem push_merge_over_defaults :
    (∀ (now : Nat) (clients : List String),
      handlePush now
          (PushEventData.json
            { title := Option.some "Update", body := Option.some "New data",
              icon := Option.none, badge := Option.none,
              vibrate := Option.none, data := Option.none }) clients =
        { shownTitle := "Update",
          shownOptions :=
            { body := "New data", icon := "/vite.svg", badge := "/vite.svg",
              vibrate := [100, 50, 100], data := PushData.marker now 1,
              actions := [("view", "View App", "/vite.svg"),
                          ("dismiss", "Dismiss", "/vite.svg")],
              requireInteraction := true },
          broadcasts := clients.map (fun c =>
            (c, { title := "Update", body := "New data", icon := "/vite.svg",
                  badge := "/vite.svg", vibrate := [100, 50, 100],
                  data := PushData.marker now 1 })) }) ∧
    (∀ (now : Nat) (clients : List String) (raw : String),
      handlePush now (PushEventData.text raw) clients =
        { shownTitle := "Pokemon PWA",
          shownOptions :=
            { body := if raw = "" then "You have a new notification!" else raw,
              icon := "/vite.svg", badge := "/vite.svg",
              vibrate := [100, 50, 100], data := PushData.marker now 1,
              actions := [("view", "View App", "/vite.svg"),
                          ("dismiss", "Dismiss", "/vite.svg")],
              requireInteraction := true },
          broadcasts := clients.map (fun c =>
            (c, { title := "Pokemon PWA",
                  body := if raw = "" then "You have a new notification!"
                    else raw,
                  icon := "/vite.svg", badge := "/vite.svg",
                  vibrate := [100, 50, 100],
                  data := PushData.marker now 1 })) }) ∧
    (∀ (now : Nat) (p : PushPayload) (clients : List String),
      (handlePush now (PushEventData.json p) clients).broadcasts =
        clients.map (fun c =>
          (c, mergePayload (defaultNotificationData now) p)) ∧
      (handlePush now (PushEventData.json p) clients).shownTitle =
        (mergePayload (defaultNotificationData now) p).title ∧
      (handlePush now (PushEventData.json p) clients).shownOptions.body =
        (mergePayload (defaultNotificationData now) p).body ∧
      (handlePush now (PushEventData.json p) clients).shownOptions.data =
        (mergePayload (defaultNotificationData now) p).data) := by
  refine ⟨?_, ?_, ?_⟩
  · intro now clients
    rfl
  · intro now clients raw
    rfl
  · intro now p clients
    exact ⟨rfl, rfl, rfl, rfl⟩

end PokemonPWA
